import Mathlib

/-!
Shallow embedding of `scraper.py` (SensorAPIMonitor): a polling agent that
refreshes a session token from browser cookies, fetches sensor telemetry over
HTTP, normalizes it into a Sample, and appends each Sample to a CSV journal.

External effects are modelled as explicit inputs: the browser cookie store is a
`List Cookie` (or an `Except` error when the store raises), the network and the
JSON parse are a `FetchOutcome`, and the wall clock is a rational number of
seconds since the Unix epoch. Python floats are modelled as exact rationals;
Python round() half-to-even rounding is modelled exactly on rationals.
-/

namespace Scraper

/-- Lowercase a string, modelling Python str.lower() on ASCII names. -/
def strLower (s : String) : String := String.mk (s.toList.map Char.toLower)

/-- Does the list start with the given pattern? -/
def listStartsWith : List Char → List Char → Bool
  | [], _ => true
  | _ :: _, [] => false
  | a :: pat, b :: s => a == b && listStartsWith pat s

/-- Does the list contain the pattern as a contiguous sublist? -/
def listContainsSub (pat : List Char) : List Char → Bool
  | [] => pat.isEmpty
  | c :: s => listStartsWith pat (c :: s) || listContainsSub pat s

/-- Python substring test: pat in s. -/
def strContains (s pat : String) : Bool := listContainsSub pat.toList s.toList

/-- A browser cookie as surfaced by browser_cookie3. -/
structure Cookie where
  name : String
  value : String
  domain : String
  path : String
deriving DecidableEq

/-- Domain filter from the source: the literal open.ac.uk inside
cookie.domain.lower(). -/
def isOUCookie (c : Cookie) : Bool := strContains (strLower c.domain) "open.ac.uk"

/-- Session-cookie test from the source: the literal session inside
cookie.name.lower(), or the name is exactly s. -/
def isSessionCookie (c : Cookie) : Bool :=
  strContains (strLower c.name) "session" || c.name == "s"

/-- The list of OU-domain cookies, in store order. -/
def ouFilter (cs : List Cookie) : List Cookie := cs.filter isOUCookie

/-- OU-domain cookies that pass the session-cookie test. -/
def matchingCookies (cs : List Cookie) : List Cookie :=
  (ouFilter cs).filter isSessionCookie

/-- The hard-coded default session token placed in form_data at construction
(source line 34). -/
def default_session_key : String := "yWYFUnYGAQ"

/-- The fixed outbound form payload; the s entry carries the session token. -/
def form_data (key : String) : List (String × String) :=
  [("a", "default"), ("c", "3"), ("i", "t193_creep_capture"), ("s", key),
   ("x", "service"), ("service", "creep"), ("names", "action"),
   ("values", "getUpdate")]

/-- Value of the last cookie in the list passing the session test, if any. -/
def lastMatchVal : List Cookie → Option String
  | [] => none
  | c :: cs =>
    match lastMatchVal cs with
    | some v => some v
    | none => if isSessionCookie c then some c.value else none

/-- The for-loop of update_session_key_from_cookies: walk the cookies in
order; on each session cookie whose value differs from the current token, log
the transition and replace the token. (The per-cookie jar update has no effect
on the token or the log and is not modelled.) Returns the final token and the
list of logged transitions (old, new). -/
def refreshLoop : String → List (String × String) → List Cookie →
    String × List (String × String)
  | key, log, [] => (key, log)
  | key, log, c :: cs =>
    if isSessionCookie c then
      if c.value ≠ key then refreshLoop c.value (log ++ [(key, c.value)]) cs
      else refreshLoop key log cs
    else refreshLoop key log cs

/-- update_session_key_from_cookies: re-read the browser cookie store; any
exception from the store is caught, leaving the token unchanged and logging no
transition; otherwise fold the OU-domain cookies through the refresh loop. -/
def update_session_key_from_cookies (key : String)
    (store : Except String (List Cookie)) : String × List (String × String) :=
  match store with
  | .error _ => (key, [])
  | .ok cs => refreshLoop key [] (ouFilter cs)

/-- load_chrome_cookies: startup variant. It remembers the value of the last
session cookie seen, and installs it over the current token only when that
value is truthy (non-empty); on store failure or no match the token is kept. -/
def load_chrome_cookies (key : String)
    (store : Except String (List Cookie)) : String :=
  match store with
  | .error _ => key
  | .ok cs =>
    match lastMatchVal (ouFilter cs) with
    | some v => if v = "" then key else v
    | none => key

/-- Python int() applied to a float: truncation toward zero. -/
def pyInt (q : ℚ) : ℤ := if 0 ≤ q then ⌊q⌋ else ⌈q⌉

/-- Python round(x) half-to-even on an exact rational. -/
def roundHalfEven (q : ℚ) : ℤ :=
  let f := ⌊q⌋
  let r := q - (f : ℚ)
  if r < 1 / 2 then f
  else if 1 / 2 < r then f + 1
  else if f % 2 = 0 then f else f + 1

/-- Python round(x, 3): round to 3 decimal places. -/
def pyRound3 (q : ℚ) : ℚ := (roundHalfEven (q * 1000) : ℚ) / 1000

/-- Experiment start: 2025-08-11 11:00:00 UTC (12pm BST), as Unix epoch
seconds. -/
def experiment_start : ℚ := 1754910000

/-- Elapsed seconds persisted in every Sample:
int((now - experiment_start).total_seconds()). -/
def elapsedSecondsAt (now : ℚ) : ℤ := pyInt (now - experiment_start)

/-- Proleptic Gregorian civil date from days since 1970-01-01
(year, month, day). -/
def civilFromDays (z0 : ℤ) : ℤ × ℤ × ℤ :=
  let z := z0 + 719468
  let era := Int.ediv z 146097
  let doe := Int.emod z 146097
  let yoe := Int.ediv (doe - Int.ediv doe 1460 + Int.ediv doe 36524 -
    Int.ediv doe 146096) 365
  let y := yoe + era * 400
  let doy := doe - (365 * yoe + Int.ediv yoe 4 - Int.ediv yoe 100)
  let mp := Int.ediv (5 * doy + 2) 153
  let d := doy - Int.ediv (153 * mp + 2) 5 + 1
  let m := mp + (if mp < 10 then 3 else -9)
  (if m ≤ 2 then y + 1 else y, m, d)

/-- Zero-padded two-digit rendering used by strftime. -/
def pad2 (n : ℤ) : String := (if n < 10 then "0" ++ toString n else toString n)

/-- strftime of the capture instant converted to the fixed UTC+1 display
offset. -/
def formatDateDDMM (now : ℚ) : String :=
  let t := ⌊now⌋ + 3600
  let days := Int.ediv t 86400
  match civilFromDays days with
  | (_, m, d) => pad2 d ++ "/" ++ pad2 m

/-- statusCode of a Sample: the HTTP status on success, a symbolic tag on
failure (the field is heterogeneous in the Python dict). -/
inductive StatusCode where
  | http (code : Nat)
  | error (tag : String)
deriving DecidableEq

/-- One journal record, mirroring the dict built by fetch_sensor_data. -/
structure Sample where
  date : String
  elapsed_seconds : ℤ
  change_in_length_mm : ℚ
  strain_percent : ℚ
  running : Bool
  temperature : ℚ
  status_code : StatusCode
deriving DecidableEq

/-- The nested data object of a success envelope; every field is read with a
defaulting get. -/
structure SensorPayload where
  elapsed : Option ℚ
  extension : Option ℚ
  running : Option Bool
  temperature : Option ℚ
deriving DecidableEq

/-- Exception values the try block of fetch_sensor_data can raise, carrying
the class hierarchy that decides except-clause dispatch. post() raises
ConnectionError or Timeout, raise_for_status() raises HTTPError on non-2xx —
all RequestException subclasses. response.json() raises the requests
JSONDecodeError (every requests release since 2.27), which subclasses BOTH
RequestException (via InvalidJSONError) and the stdlib json JSONDecodeError.
A plain stdlib json JSONDecodeError is representable, but nothing in this try
block raises one. -/
inductive PyExc where
  | connectionError
  | timeoutError
  | httpError
  | requestsJSONDecodeError
  | stdlibJSONDecodeError
  | otherException
deriving DecidableEq

/-- isinstance(e, requests.exceptions.RequestException). -/
def isRequestException : PyExc → Bool
  | .connectionError => true
  | .timeoutError => true
  | .httpError => true
  | .requestsJSONDecodeError => true
  | _ => false

/-- isinstance(e, json.JSONDecodeError). -/
def isJSONDecodeError : PyExc → Bool
  | .requestsJSONDecodeError => true
  | .stdlibJSONDecodeError => true
  | _ => false

/-- Except-clause dispatch in source order: the RequestException clause is
tested first (line 192), the json JSONDecodeError clause second (line 195),
the bare Exception clause last (line 198); the first matching class wins. -/
def dispatchErrorType (e : PyExc) : String :=
  if isRequestException e then "REQUEST_ERROR"
  else if isJSONDecodeError e then "JSON_ERROR"
  else "FETCH_ERROR"

/-- A parsed JSON body: either the expected envelope with ok.data present, or
parseable JSON of any other shape. -/
inductive JsonBody where
  | envelope (data : SensorPayload)
  | malformed
deriving DecidableEq

/-- Outcome of the network interaction of one cycle: either some step of the
try block raised an exception, or a 2xx response with a parsed JSON body was
obtained. -/
inductive FetchOutcome where
  | raise (e : PyExc)
  | response (status : Nat) (body : JsonBody)
deriving DecidableEq

/-- The external inputs of one fetch cycle: the network outcome and the
wall-clock capture instant (epoch seconds, UTC). -/
structure FetchEnv where
  outcome : FetchOutcome
  now : ℚ
deriving DecidableEq

/-- Constructor configuration of SensorAPIMonitor. -/
structure Config where
  output_file : String
  original_length_mm : ℚ
deriving DecidableEq

/-- The configuration used by main(): 50 mm specimen. -/
def mainConfig : Config :=
  { output_file := "sensor_data.csv", original_length_mm := 50 }

/-- create_error_record: zero-valued Sample tagged ERROR_ followed by the
error kind, with locally computed date and elapsed seconds. -/
def create_error_record (now : ℚ) (error_type : String) : Sample :=
  { date := formatDateDDMM now
    elapsed_seconds := elapsedSecondsAt now
    change_in_length_mm := 0
    strain_percent := 0
    running := false
    temperature := 0
    status_code := .error ("ERROR_" ++ error_type) }

/-- fetch_sensor_data: on a successful 2xx response whose JSON carries the
ok.data envelope, build the normalized Sample; on an envelope of any other
shape, an API_FORMAT_ERROR record; on a raised exception, the record of the
kind chosen by except-clause dispatch. Always returns some Sample despite the
Optional annotation. -/
def fetch_sensor_data (cfg : Config) (env : FetchEnv) : Option Sample :=
  match env.outcome with
  | .raise e => some (create_error_record env.now (dispatchErrorType e))
  | .response status body =>
    match body with
    | .malformed => some (create_error_record env.now "API_FORMAT_ERROR")
    | .envelope sensor_data =>
      let change_in_length := pyRound3 (sensor_data.extension.getD 0)
      let strain_percent :=
        pyRound3 (change_in_length / cfg.original_length_mm * 100)
      some { date := formatDateDDMM env.now
             elapsed_seconds := elapsedSecondsAt env.now
             change_in_length_mm := change_in_length
             strain_percent := strain_percent
             running := sensor_data.running.getD false
             temperature := sensor_data.temperature.getD 0
             status_code := .http status }

/-- The fixed CSV header row written by init_csv_file. -/
def header : List String :=
  ["Date", "Elapsed Time (s)", "Change in Length (mm)", "% Strain"]

/-- A CSV file as a list of rows; none models an absent file. -/
abbrev CsvFile := List (List String)

/-- init_csv_file: create the file with the header only when it does not
exist; an existing file is left untouched. -/
def init_csv_file : Option CsvFile → Option CsvFile
  | none => some [header]
  | some rows => some rows

/-- The four cells written per Sample (numeric cells rendered by their
canonical textual form; no claim inspects the cell text). -/
def sampleRow (s : Sample) : List String :=
  [s.date, toString s.elapsed_seconds, toString s.change_in_length_mm,
   toString s.strain_percent]

/-- save_data: open in append mode (creating the file when absent) and write
exactly one row. -/
def save_data (f : Option CsvFile) (s : Sample) : Option CsvFile :=
  match f with
  | none => some [sampleRow s]
  | some rows => some (rows ++ [sampleRow s])

/-- The loop body of run_for_duration iterated over one external environment
per cycle: fetch, and append when the result is truthy. Sleep and progress
logging do not touch the file. -/
def run_cycles (cfg : Config) : List FetchEnv → Option CsvFile → Option CsvFile
  | [], f => f
  | env :: envs, f =>
    match fetch_sensor_data cfg env with
    | some data => run_cycles cfg envs (save_data f data)
    | none => run_cycles cfg envs f

/-- The rows one cycle contributes to the journal. -/
def rowOfEnv (cfg : Config) (env : FetchEnv) : List (List String) :=
  match fetch_sensor_data cfg env with
  | some data => [sampleRow data]
  | none => []

/-- Per-cycle sleep actually performed by the scheduler:
sleep_time = max(0, interval - fetch_duration), slept only when positive. -/
def cycle_sleep (interval_seconds fetch_duration : ℚ) : ℚ :=
  let sleep_time := max 0 (interval_seconds - fetch_duration)
  if sleep_time > 0 then sleep_time else 0

/-- A concrete success payload used by witnesses (extension 1.255 mm,
temperature 21.4, running). -/
def payload3 : SensorPayload :=
  { elapsed := some 999, extension := some (1255 / 1000), running := some true,
    temperature := some (214 / 10) }

/-- The token left by the refresh loop is the value of the last session cookie
in the list, or the starting token when none matches; the transition log never
feeds back into the token. -/
lemma refreshLoop_key : ∀ (l : List Cookie) (key : String)
    (log : List (String × String)),
    (refreshLoop key log l).1 = (lastMatchVal l).getD key := by
  intro l
  induction l with
  | nil => intro key log; rfl
  | cons c cs ih =>
    intro key log
    rcases h : lastMatchVal cs with _ | v
    · by_cases hs : isSessionCookie c = true
      · by_cases hv : c.value = key
        · simp [refreshLoop, lastMatchVal, hs, hv, ih, h]
        · simp [refreshLoop, lastMatchVal, hs, hv, ih, h]
      · simp [refreshLoop, lastMatchVal, hs, ih, h]
    · by_cases hs : isSessionCookie c = true
      · by_cases hv : c.value = key
        · simp [refreshLoop, lastMatchVal, hs, hv, ih, h]
        · simp [refreshLoop, lastMatchVal, hs, hv, ih, h]
      · simp [refreshLoop, lastMatchVal, hs, ih, h]

/-- When every session cookie in the list already carries the current token,
the refresh loop is a no-op: token kept, nothing logged. -/
lemma refreshLoop_const : ∀ (l : List Cookie) (key : String)
    (log : List (String × String)),
    (∀ c ∈ l, isSessionCookie c = true → c.value = key) →
    refreshLoop key log l = (key, log) := by
  intro l
  induction l with
  | nil => intro key log _; rfl
  | cons c cs ih =>
    intro key log h
    by_cases hs : isSessionCookie c = true
    · have hv : c.value = key := h c (by simp) hs
      simp only [refreshLoop, hs, if_true, hv, ne_eq, not_true_eq_false,
        if_false, ite_self]
      exact ih key log (fun c' hc' hs' => h c' (by simp [hc']) hs')
    · simp only [refreshLoop, hs, if_false]
      exact ih key log (fun c' hc' hs' => h c' (by simp [hc']) hs')

/-- A last matching value comes from an actual session cookie of the list. -/
lemma lastMatchVal_mem : ∀ (l : List Cookie) (v : String),
    lastMatchVal l = some v →
    ∃ c, c ∈ l ∧ isSessionCookie c = true ∧ c.value = v := by
  intro l
  induction l with
  | nil => intro v h; simp [lastMatchVal] at h
  | cons c cs ih =>
    intro v h
    rcases hcs : lastMatchVal cs with _ | w
    · simp only [lastMatchVal, hcs] at h
      by_cases hs : isSessionCookie c = true
      · simp only [hs, if_true, Option.some.injEq] at h
        exact ⟨c, by simp, hs, h⟩
      · simp [hs] at h
    · simp only [lastMatchVal, hcs, Option.some.injEq] at h
      obtain ⟨c', hc', hs', hv'⟩ := ih w hcs
      exact ⟨c', by simp [hc'], hs', by rw [hv', h]⟩

/-- If no last matching value exists, the list holds no session cookie. -/
lemma lastMatchVal_none : ∀ (l : List Cookie), lastMatchVal l = none →
    ∀ c ∈ l, isSessionCookie c = false := by
  intro l
  induction l with
  | nil => intro _ c hc; simp at hc
  | cons c cs ih =>
    intro h c' hc'
    rcases hcs : lastMatchVal cs with _ | w
    · simp only [lastMatchVal, hcs] at h
      rcases List.mem_cons.mp hc' with rfl | hmem
      · by_cases hs : isSessionCookie c' = true
        · simp [hs] at h
        · simpa using hs
      · exact ih hcs c' hmem
    · simp [lastMatchVal, hcs] at h

/-- One run of the loop body per environment appends exactly the rows each
cycle contributes, after everything already in the file. -/
lemma run_cycles_append (cfg : Config) : ∀ (envs : List FetchEnv)
    (rows : CsvFile),
    run_cycles cfg envs (some rows) =
      some (rows ++ (envs.map (rowOfEnv cfg)).flatten) := by
  intro envs
  induction envs with
  | nil => intro rows; simp [run_cycles]
  | cons env envs ih =>
    intro rows
    rcases hf : fetch_sensor_data cfg env with _ | d
    · simp [run_cycles, hf, rowOfEnv, ih, Nat.add_comm]
    · simp [run_cycles, hf, save_data, rowOfEnv, ih, Nat.add_comm]

/-- Every cycle contributes exactly one row: fetch always yields a Sample. -/
lemma rowOfEnv_length (cfg : Config) (env : FetchEnv) :
    (rowOfEnv cfg env).length = 1 := by
  rcases env with ⟨o, now⟩
  cases o with
  | raise e => rfl
  | response st b => cases b <;> rfl

/-- N cycles contribute exactly N data rows. -/
lemma rows_join_length (cfg : Config) : ∀ envs : List FetchEnv,
    ((envs.map (rowOfEnv cfg)).flatten).length = envs.length := by
  intro envs
  induction envs with
  | nil => rfl
  | cons env envs ih => simp [rowOfEnv_length, ih, Nat.add_comm]

/-- Initialization is idempotent on the file state. -/
lemma init_init : ∀ f, init_csv_file (init_csv_file f) = init_csv_file f := by
  intro f; cases f <;> rfl

/-- Iterating initialization any positive number of times equals doing it
once. -/
lemma init_iterate : ∀ (n : ℕ) (f : Option CsvFile),
    init_csv_file^[n + 1] f = init_csv_file f := by
  intro n
  induction n with
  | zero => intro f; rfl
  | succ n ih =>
    intro f
    rw [Function.iterate_succ_apply, ih (init_csv_file f), init_init f]

/-- Python int() truncation is monotone on the rationals. -/
lemma pyInt_mono (q r : ℚ) (h : q ≤ r) : pyInt q ≤ pyInt r := by
  unfold pyInt
  by_cases hq : 0 ≤ q
  · rw [if_pos hq, if_pos (le_trans hq h)]
    exact Int.floor_mono h
  · by_cases hr : 0 ≤ r
    · rw [if_neg hq, if_pos hr]
      exact le_trans (Int.ceil_le.mpr (by exact_mod_cast le_of_not_le hq))
        (Int.le_floor.mpr (by exact_mod_cast hr))
    · rw [if_neg hq, if_neg hr]
      exact Int.ceil_mono h

/-- C1: evaluation at the failing input. A cycle whose HTTP exchange succeeds
but whose body fails to parse raises the requests JSONDecodeError, a class
that is also a RequestException, so the first except clause catches it and the
cycle is tagged ERROR_REQUEST_ERROR — not the distinct ERROR_JSON_ERROR the
claim and the spec prescribe. The JSON_ERROR clause would fire only for a
plain stdlib JSONDecodeError, which the try block never raises. -/
theorem C1_json_parse_dispatch (cfg : Config) (now : ℚ) :
    isRequestException .requestsJSONDecodeError = true ∧
    isJSONDecodeError .requestsJSONDecodeError = true ∧
    fetch_sensor_data cfg ⟨.raise .requestsJSONDecodeError, now⟩ =
      some (create_error_record now "REQUEST_ERROR") ∧
    (create_error_record now "REQUEST_ERROR").status_code =
      StatusCode.error "ERROR_REQUEST_ERROR" ∧
    (create_error_record now "REQUEST_ERROR").status_code ≠
      StatusCode.error "ERROR_JSON_ERROR" ∧
    fetch_sensor_data cfg ⟨.raise .stdlibJSONDecodeError, now⟩ =
      some (create_error_record now "JSON_ERROR") := by
  refine ⟨rfl, rfl, rfl, rfl, ?_, rfl⟩
  show StatusCode.error "ERROR_REQUEST_ERROR" ≠
    StatusCode.error "ERROR_JSON_ERROR"
  decide

/-- C2: a transport-level failure (connection failure, timeout, or the
HTTPError raised on a non-2xx status) makes fetch_sensor_data return a Sample
with statusCode ERROR_REQUEST_ERROR, zero change in length, zero strain,
running false and temperature 0. -/
theorem C2_request_error_record (cfg : Config) (now : ℚ) :
    fetch_sensor_data cfg ⟨.raise .connectionError, now⟩ =
      some (create_error_record now "REQUEST_ERROR") ∧
    fetch_sensor_data cfg ⟨.raise .timeoutError, now⟩ =
      some (create_error_record now "REQUEST_ERROR") ∧
    fetch_sensor_data cfg ⟨.raise .httpError, now⟩ =
      some (create_error_record now "REQUEST_ERROR") ∧
    (create_error_record now "REQUEST_ERROR").status_code =
      StatusCode.error "ERROR_REQUEST_ERROR" ∧
    (create_error_record now "REQUEST_ERROR").change_in_length_mm = 0 ∧
    (create_error_record now "REQUEST_ERROR").strain_percent = 0 ∧
    (create_error_record now "REQUEST_ERROR").running = false ∧
    (create_error_record now "REQUEST_ERROR").temperature = 0 :=
  ⟨rfl, rfl, rfl, rfl, rfl, rfl, rfl, rfl⟩

/-- C3: every successful fetch produces a Sample whose change in length is the
remote extension rounded to 3 decimals and whose strain percentage is
round(changeInLengthMm / originalLengthMm * 100, 3); with a 50 mm specimen and
remote extension 1.255 the Sample carries 1.255 mm and 2.51 percent. -/
theorem C3_strain_relation (cfg : Config) (st : Nat) (p : SensorPayload)
    (now : ℚ) (s : Sample)
    (h : fetch_sensor_data cfg ⟨.response st (.envelope p), now⟩ = some s) :
    s.change_in_length_mm = pyRound3 (p.extension.getD 0) ∧
    s.strain_percent =
      pyRound3 (s.change_in_length_mm / cfg.original_length_mm * 100) ∧
    (cfg.original_length_mm = 50 → p.extension = some (1255 / 1000) →
      s.change_in_length_mm = 1255 / 1000 ∧ s.strain_percent = 251 / 100) := by
  simp only [fetch_sensor_data, Option.some.injEq] at h
  subst h
  refine ⟨rfl, rfl, ?_⟩
  intro h50 hext
  rw [h50, hext]
  constructor
  · norm_num [pyRound3, roundHalfEven]
  · norm_num [pyRound3, roundHalfEven]

/-- C3 witness: the 50 mm scenario evaluated on concrete inputs. -/
theorem C3_strain_witness :
    ((fetch_sensor_data mainConfig
        ⟨.response 200 (.envelope payload3), 0⟩).getD
        (create_error_record 0 "X")).change_in_length_mm = 1255 / 1000 ∧
    ((fetch_sensor_data mainConfig
        ⟨.response 200 (.envelope payload3), 0⟩).getD
        (create_error_record 0 "X")).strain_percent = 251 / 100 := by
  have h : fetch_sensor_data mainConfig ⟨.response 200 (.envelope payload3), 0⟩ =
      some ((fetch_sensor_data mainConfig
        ⟨.response 200 (.envelope payload3), 0⟩).getD
        (create_error_record 0 "X")) := rfl
  exact (C3_strain_relation mainConfig 200 payload3 0 _ h).2.2 rfl rfl

/-- C4 counterexample: at a capture instant half a second before the
experiment start, the persisted elapsed seconds is 0 (Python int() truncates
toward zero) while the floor of the difference is -1, so the claim as stated
fails. -/
theorem C4_elapsed_counterexample :
    (create_error_record (experiment_start - 1 / 2)
        "REQUEST_ERROR").elapsed_seconds ≠
      ⌊(experiment_start - 1 / 2) - experiment_start⌋ := by
  show elapsedSecondsAt (experiment_start - 1 / 2) ≠
    ⌊(experiment_start - 1 / 2) - experiment_start⌋
  have h1 : (experiment_start - 1 / 2) - experiment_start = -(1 / 2 : ℚ) := by
    ring
  have h2 : ¬ (0 : ℚ) ≤ (experiment_start - 1 / 2) - experiment_start := by
    rw [h1]; norm_num
  simp only [elapsedSecondsAt, pyInt, if_neg h2, h1]
  have hc : (⌈-(1 / 2 : ℚ)⌉ : ℤ) = 0 := by
    rw [Int.ceil_eq_iff]
    constructor <;> norm_num
  have hf : (⌊-(1 / 2 : ℚ)⌋ : ℤ) = -1 := by norm_num
  rw [hc, hf, if_neg (show ¬ (0 : ℚ) ≤ -(1 / 2) by norm_num)]
  decide

/-- C4 amended: for every cycle, success or error, elapsedSeconds is the
truncation toward zero of (capture instant minus the experiment start) in
seconds — the floor whenever the capture instant is not before the experiment
start, the ceiling before it; it is computed only from the wall clock (the
remote elapsed field never influences the Sample) and is non-decreasing in
the capture instant, unconditionally. -/
theorem C4_elapsed_amended (cfg : Config) (o : FetchOutcome) (tag : String)
    (p : SensorPayload) (v : Option ℚ) (st : Nat) (now now2 : ℚ)
    (h2 : now ≤ now2) :
    (experiment_start ≤ now →
      elapsedSecondsAt now = ⌊now - experiment_start⌋) ∧
    (now < experiment_start →
      elapsedSecondsAt now = ⌈now - experiment_start⌉) ∧
    elapsedSecondsAt now ≤ elapsedSecondsAt now2 ∧
    (fetch_sensor_data cfg ⟨o, now⟩).map Sample.elapsed_seconds =
      some (elapsedSecondsAt now) ∧
    fetch_sensor_data cfg
        ⟨.response st (.envelope { p with elapsed := v }), now⟩ =
      fetch_sensor_data cfg ⟨.response st (.envelope p), now⟩ ∧
    (create_error_record now tag).elapsed_seconds = elapsedSecondsAt now := by
  refine ⟨?_, ?_, pyInt_mono _ _ (by linarith), ?_, rfl, rfl⟩
  · intro h
    simp [elapsedSecondsAt, pyInt, sub_nonneg.mpr h]
  · intro h
    have hn : ¬ (0 : ℚ) ≤ now - experiment_start := by linarith
    simp [elapsedSecondsAt, pyInt, hn]
  · cases o with
    | raise e => rfl
    | response st' b => cases b <;> rfl

/-- C4 witness: the amended statement evaluated on concrete instants after the
experiment start. -/
theorem C4_elapsed_witness :
    elapsedSecondsAt (experiment_start + 3 / 2) =
      ⌊(experiment_start + 3 / 2) - experiment_start⌋ ∧
    elapsedSecondsAt (experiment_start + 3 / 2) ≤
      elapsedSecondsAt (experiment_start + 2) ∧
    (fetch_sensor_data mainConfig
        ⟨.raise .connectionError, experiment_start + 3 / 2⟩).map
        Sample.elapsed_seconds =
      some (elapsedSecondsAt (experiment_start + 3 / 2)) ∧
    fetch_sensor_data mainConfig
        ⟨.response 200 (.envelope { payload3 with elapsed := some 5 }),
          experiment_start + 3 / 2⟩ =
      fetch_sensor_data mainConfig
        ⟨.response 200 (.envelope payload3), experiment_start + 3 / 2⟩ ∧
    (create_error_record (experiment_start + 3 / 2)
        "REQUEST_ERROR").elapsed_seconds =
      elapsedSecondsAt (experiment_start + 3 / 2) := by
  have h := C4_elapsed_amended mainConfig (.raise .connectionError)
    "REQUEST_ERROR" payload3 (some 5) 200 (experiment_start + 3 / 2)
    (experiment_start + 2) (by norm_num)
  exact ⟨h.1 (by norm_num), h.2.2.1, h.2.2.2.1, h.2.2.2.2.1, h.2.2.2.2.2⟩

/-- C5: starting from an absent file, initialization plus N loop cycles leave
exactly one header row followed by exactly one data row per cycle (N + 1 rows
in total), and running cycles over any existing file only appends after the
existing rows, never rewriting or deleting them. -/
theorem C5_journal_lines (cfg : Config) (envs : List FetchEnv)
    (rows : CsvFile) :
    run_cycles cfg envs (init_csv_file none) =
      some (header :: (envs.map (rowOfEnv cfg)).flatten) ∧
    (header :: (envs.map (rowOfEnv cfg)).flatten).length = envs.length + 1 ∧
    run_cycles cfg envs (some rows) =
      some (rows ++ (envs.map (rowOfEnv cfg)).flatten) := by
  refine ⟨?_, ?_, run_cycles_append cfg envs rows⟩
  · simpa [init_csv_file] using run_cycles_append cfg envs [header]
  · simp [rows_join_length cfg envs]

/-- C6: journal initialization is idempotent: on an absent file it creates
exactly the fixed four-column header row; an existing file is left entirely
unchanged, no matter how many times initialization runs. -/
theorem C6_init_idempotent (f : Option CsvFile) (rows : CsvFile) (n : ℕ) :
    init_csv_file none = some [header] ∧
    header = ["Date", "Elapsed Time (s)", "Change in Length (mm)",
      "% Strain"] ∧
    init_csv_file (some rows) = some rows ∧
    init_csv_file^[n + 1] f = init_csv_file f :=
  ⟨rfl, rfl, rfl, init_iterate n f⟩

/-- C7: the scheduler sleeps exactly max(0, interval minus the cycle body
duration): the sleep is never negative and a 35 s cycle against a 30 s
interval sleeps 0 s, with no compensation. -/
theorem C7_sleep_clamp (i d : ℚ) :
    cycle_sleep i d = max 0 (i - d) ∧ 0 ≤ cycle_sleep i d ∧
    cycle_sleep 30 35 = 0 := by
  have h1 : cycle_sleep i d = max 0 (i - d) := by
    by_cases hp : max 0 (i - d) > 0
    · simp [cycle_sleep, hp]
    · push_neg at hp
      simp only [cycle_sleep, gt_iff_lt]
      rw [if_neg (by exact fun hlt => absurd hp (not_le.mpr hlt))]
      exact (le_antisymm hp (le_max_left 0 (i - d))).symm
  refine ⟨h1, ?_, ?_⟩
  · rw [h1]
    exact le_max_left 0 (i - d)
  · norm_num [cycle_sleep]

/-- C8 counterexample: with two OU session cookies carrying distinct values, a
second refresh under the identical cookie state logs transitions again (the
token flip-flops through each cookie), so refresh is not idempotent as
claimed. -/
theorem C8_refresh_counterexample :
    (update_session_key_from_cookies
        (update_session_key_from_cookies default_session_key
          (Except.ok [⟨"sessiona", "a", "open.ac.uk", "/"⟩,
            ⟨"sessionb", "b", "open.ac.uk", "/"⟩])).1
        (Except.ok [⟨"sessiona", "a", "open.ac.uk", "/"⟩,
          ⟨"sessionb", "b", "open.ac.uk", "/"⟩])).2 ≠ [] := by
  decide

/-- C8 amended: refresh never raises; a cookie-store failure preserves the
stored token and logs nothing; a second refresh under identical cookie state
always leaves the token unchanged, and logs no transition provided all
matching session cookies carry one common value. -/
theorem C8_refresh_amended (key : String) (cs : List Cookie) (e : String) :
    update_session_key_from_cookies key (Except.error e) = (key, []) ∧
    (update_session_key_from_cookies
        (update_session_key_from_cookies key (Except.ok cs)).1
        (Except.ok cs)).1 =
      (update_session_key_from_cookies key (Except.ok cs)).1 ∧
    ((∀ c1 ∈ matchingCookies cs, ∀ c2 ∈ matchingCookies cs,
        c1.value = c2.value) →
      (update_session_key_from_cookies
          (update_session_key_from_cookies key (Except.ok cs)).1
          (Except.ok cs)).2 = []) := by
  refine ⟨rfl, ?_, ?_⟩
  · simp only [update_session_key_from_cookies]
    rw [refreshLoop_key, refreshLoop_key]
    rcases h : lastMatchVal (ouFilter cs) with _ | v <;> simp
  · intro hsame
    simp only [update_session_key_from_cookies]
    rw [refreshLoop_key]
    rcases h : lastMatchVal (ouFilter cs) with _ | v
    · have hnone := lastMatchVal_none (ouFilter cs) h
      simp only [Option.getD]
      rw [refreshLoop_const (ouFilter cs) key []
        (fun c hc hs => absurd hs (by simp [hnone c hc]))]
    · obtain ⟨c0, hc0, hs0, hv0⟩ := lastMatchVal_mem (ouFilter cs) v h
      have hm0 : c0 ∈ matchingCookies cs := List.mem_filter.mpr ⟨hc0, hs0⟩
      have hall : ∀ c ∈ ouFilter cs, isSessionCookie c = true →
          c.value = v := by
        intro c hc hs
        have hm : c ∈ matchingCookies cs := List.mem_filter.mpr ⟨hc, hs⟩
        rw [hsame c hm c0 hm0, hv0]
      simp only [Option.getD]
      rw [refreshLoop_const (ouFilter cs) v [] hall]

/-- C8 witness: the amended statement evaluated with one stable session
cookie: the second refresh keeps the token and logs nothing. -/
theorem C8_refresh_witness :
    (update_session_key_from_cookies
        (update_session_key_from_cookies default_session_key
          (Except.ok [⟨"MoodleSession", "tok1", "learn.open.ac.uk", "/"⟩])).1
        (Except.ok
          [⟨"MoodleSession", "tok1", "learn.open.ac.uk", "/"⟩])).2 = [] :=
  (C8_refresh_amended default_session_key
    [⟨"MoodleSession", "tok1", "learn.open.ac.uk", "/"⟩] "e").2.2 (by decide)

/-- C9: fetch_sensor_data is total: despite its Optional annotation it returns
a Sample on every path, so the truthiness guard of the scheduler always takes
the true branch and every cycle appends exactly one row. -/
theorem C9_fetch_total (cfg : Config) (o : FetchOutcome) (now : ℚ)
    (rows : CsvFile) :
    (fetch_sensor_data cfg ⟨o, now⟩).isSome = true ∧
    (run_cycles cfg [⟨o, now⟩] (some rows)).map List.length =
      some (rows.length + 1) := by
  constructor
  · cases o with
    | raise e => rfl
    | response st b => cases b <;> rfl
  · rw [run_cycles_append]
    simp [rows_join_length cfg [⟨o, now⟩], rowOfEnv_length]

/-- C10 counterexample: a refresh that sees an OU session cookie whose value
is the empty string overwrites the stored token with the empty string, so the
outbound token is not always non-empty. -/
theorem C10_token_counterexample :
    (update_session_key_from_cookies default_session_key
        (Except.ok [⟨"session", "", "open.ac.uk", "/"⟩])).1 = "" ∧
    default_session_key ≠ "" := by
  constructor
  · decide
  · decide

/-- C10 amended: the s entry of the outbound form data always carries the
stored token; the token starts at the hard-coded default, is preserved by
every failing store read, and stays non-empty through startup loading and
through refreshes as long as no matching session cookie carries an empty
value (startup loading never installs an empty value by itself). -/
theorem C10_token_amended (key : String) (cs : List Cookie) (e : String)
    (hk : key ≠ "") (hc : ∀ c ∈ matchingCookies cs, c.value ≠ "") :
    default_session_key = "yWYFUnYGAQ" ∧
    (form_data key).lookup "s" = some key ∧
    load_chrome_cookies key (Except.error e) = key ∧
    (update_session_key_from_cookies key (Except.error e)).1 = key ∧
    load_chrome_cookies key (Except.ok cs) ≠ "" ∧
    (update_session_key_from_cookies key (Except.ok cs)).1 ≠ "" := by
  refine ⟨rfl, rfl, rfl, rfl, ?_, ?_⟩
  · rcases h : lastMatchVal (ouFilter cs) with _ | v
    · simpa [load_chrome_cookies, h] using hk
    · by_cases hv : v = ""
      · simpa [load_chrome_cookies, h, hv] using hk
      · simp [load_chrome_cookies, h, hv]
  · simp only [update_session_key_from_cookies]
    rw [refreshLoop_key]
    rcases h : lastMatchVal (ouFilter cs) with _ | v
    · simpa using hk
    · obtain ⟨c0, hc0, hs0, hv0⟩ := lastMatchVal_mem (ouFilter cs) v h
      have hm : c0 ∈ matchingCookies cs := List.mem_filter.mpr ⟨hc0, hs0⟩
      simpa using hv0 ▸ hc c0 hm

/-- C10 witness: the amended statement evaluated with one non-empty session
cookie. -/
theorem C10_token_witness :
    load_chrome_cookies "yWYFUnYGAQ"
        (Except.ok [⟨"MoodleSession", "tok1", "learn.open.ac.uk", "/"⟩]) ≠
      "" ∧
    (update_session_key_from_cookies "yWYFUnYGAQ"
        (Except.ok [⟨"MoodleSession", "tok1", "learn.open.ac.uk", "/"⟩])).1 ≠
      "" := by
  have h := C10_token_amended "yWYFUnYGAQ"
    [⟨"MoodleSession", "tok1", "learn.open.ac.uk", "/"⟩] "e" (by decide)
    (by decide)
  exact ⟨h.2.2.2.2.1, h.2.2.2.2.2⟩

end Scraper
